import Mathlib

/-!
# Verification of the PrioAI dashboard proxy functions and service worker

Shallow embedding of the repository's three JavaScript source files:

* `functions/api/airtable.js` — the Airtable proxy (path validation,
  rate limiting, CORS, upstream forwarding and error masking);
* `functions/api/intent-score.js` — the lead intent-score handler
  (prompt construction, upstream reply parsing and bounds checking);
* the service worker (cache dispatch policy for intercepted fetches).

Each JavaScript function is translated into an executable Lean
definition; handler control flow becomes a pure function from the
request, environment and (for the rate limiter) explicit state to a
response value, with the upstream network modelled as a function
parameter.  String operations are implemented structurally over
`List Char` so that every definition evaluates on concrete inputs.
Theorems then settle the specification claims against these
definitions.
-/

namespace JsStr

/-- Split a character list at every occurrence of `sep`, JS
`String.prototype.split` with a one-character separator (the source
only ever splits on `'/'`, `'?'`, `','` and `'&'`). -/
def splitOnCharAux (sep : Char) : List Char → List Char → List (List Char)
  | [], acc => [acc.reverse]
  | c :: cs, acc =>
    if c = sep then acc.reverse :: splitOnCharAux sep cs []
    else splitOnCharAux sep cs (c :: acc)

/-- `s.split(sep)` for a one-character separator. -/
def splitOnChar (sep : Char) (s : List Char) : List (List Char) :=
  splitOnCharAux sep s []

/-- JS `s.startsWith(pre)`. -/
def jsStartsWith (s pre : String) : Bool :=
  pre.toList.isPrefixOf s.toList

/-- Substring occurrence on character lists. -/
def subOccurs (pat : List Char) : List Char → Bool
  | [] => pat.isPrefixOf []
  | c :: cs => pat.isPrefixOf (c :: cs) || subOccurs pat cs

/-- JS `s.includes(pat)`. -/
def jsIncludes (s pat : String) : Bool :=
  subOccurs pat.toList s.toList

/-- The whitespace class used by JS `trim` / `parseInt`, restricted to
the ASCII whitespace characters (the full JS class also has Unicode
space separators, which no input in this code base contains). -/
def isSpaceChar (c : Char) : Bool :=
  c = ' ' || c = '\t' || c = '\n' || c = '\r'

/-- JS `s.trim()`. -/
def jsTrim (s : String) : String :=
  String.mk (((s.toList.dropWhile isSpaceChar).reverse.dropWhile isSpaceChar).reverse)

/-- Longest leading run of decimal digits. -/
def digitsPrefix : List Char → List Char
  | [] => []
  | c :: cs => if c.isDigit then c :: digitsPrefix cs else []

/-- Decimal value of a digit list. -/
def digitsVal (ds : List Char) : Nat :=
  ds.foldl (fun acc c => acc * 10 + (c.toNat - '0'.toNat)) 0

/-- JS `parseInt(s, 10)`: skip leading whitespace, read an optional
sign and then the longest run of decimal digits, ignoring anything
after them; `none` models the `NaN` result when no digit is found. -/
def jsParseInt (s : String) : Option Int :=
  let cs := s.toList.dropWhile isSpaceChar
  let signAndRest : Int × List Char :=
    match cs with
    | '-' :: r => (-1, r)
    | '+' :: r => (1, r)
    | r => (1, r)
  let ds := digitsPrefix signAndRest.2
  if ds = [] then none
  else some (signAndRest.1 * (digitsVal ds : Int))

/-- JS truthiness of a nullable string: `null`, `undefined` and `""`
are falsy. -/
def jsTruthy : Option String → Bool
  | none => false
  | some s => s ≠ ""

end JsStr

open JsStr

/-- An HTTP response as the handlers build it: status, JSON body (the
preflight response has none) and the `Access-Control-Allow-Origin`
header.  The remaining fixed headers (`Content-Type`, `Vary`,
`Access-Control-Allow-Credentials`, …) are constants no claim refers
to and are not modelled. -/
structure HttpResponse (β : Type) where
  status : Nat
  body : Option β
  acao : String
deriving DecidableEq, Repr

namespace Airtable

/-- `const ALLOWED_BASE = 'applOjDjhH0RqLtBH'` (airtable.js line 5). -/
def ALLOWED_BASE : String := "applOjDjhH0RqLtBH"

/-- `const ALLOWED_TABLES = [...]` (airtable.js line 6). -/
def ALLOWED_TABLES : List String := ["tblMptC862PyL7Znw", "tblLpN4wceakfNFpq"]

/-- `const ALLOWED_ORIGINS = [...]` (airtable.js lines 9-17). -/
def ALLOWED_ORIGINS : List String :=
  ["https://dashboard.prioai.ca", "https://dash.prioai.ca",
   "https://prioai.ca", "https://www.prioai.ca",
   "http://localhost:3000", "http://localhost:8788", "http://127.0.0.1:8788"]

/-- Result record of `validateAirtablePath`: `{valid, error?}`. -/
structure ValidationResult where
  valid : Bool
  error : Option String
deriving DecidableEq, Repr

/-- The regex test `/^rec[a-zA-Z0-9]+$/.test(recordId)` (airtable.js
line 77).  `Char.isAlphanum` is exactly the ASCII class `[a-zA-Z0-9]`. -/
def recMatch (s : String) : Bool :=
  match s.toList with
  | 'r' :: 'e' :: 'c' :: rest => rest ≠ [] && rest.all Char.isAlphanum
  | _ => false

/-- Lines 53-58 of `validateAirtablePath`: strip one leading `/`, keep
the part before the first `?`, split on `/` and drop the empty
segments (`split('/').filter(Boolean)`). -/
def cleanParts (path : String) : List String :=
  let cleanPath :=
    match path.toList with
    | '/' :: rest => rest
    | cs => cs
  let pathPart := (splitOnChar '?' cleanPath).headD []
  (((splitOnChar '/' pathPart).filter (fun l => l ≠ [])).map String.mk)

/-- `validateAirtablePath` (airtable.js lines 48-87).  The argument is
always a string at the one call site, so the `typeof` guard reduces to
the JS-falsy check `!path`, i.e. `path = ""`. -/
def validateAirtablePath (path : String) : ValidationResult :=
  if path = "" then ⟨false, some "Invalid path"⟩
  else
    let parts := cleanParts path
    if parts.length < 2 ∨ parts.length > 3 then
      ⟨false, some "Invalid path structure"⟩
    else
      let base := parts.headD ""
      let table := (parts.drop 1).headD ""
      let recordId := (parts.drop 2).headD ""
      if base ≠ ALLOWED_BASE then ⟨false, some "Invalid base"⟩
      else if ¬ ALLOWED_TABLES.contains table then ⟨false, some "Invalid table"⟩
      else if recordId ≠ "" ∧ ¬ recMatch recordId then
        ⟨false, some "Invalid record ID format"⟩
      else if jsIncludes path ".." ∨ jsIncludes path "//" then
        ⟨false, some "Invalid path characters"⟩
      else ⟨true, none⟩

/-- One rate-limit record: `{ count, resetAt }` (airtable.js line 27). -/
structure RateRecord where
  count : Nat
  resetAt : Nat
deriving DecidableEq, Repr

/-- `const RATE_LIMIT = 1000` (airtable.js line 21). -/
def RATE_LIMIT : Nat := 1000

/-- `const RATE_WINDOW = 60000` (airtable.js line 22). -/
def RATE_WINDOW : Nat := 60000

/-- The `rateLimits` map, modelled as an association list keyed by the
client IP string (JS `Map` iteration order does not matter to any
claim). -/
abbrev RateLimits := List (String × RateRecord)

/-- `rateLimits.get(ip)`. -/
def rlGet (m : RateLimits) (ip : String) : Option RateRecord :=
  (m.find? (fun p => p.1 = ip)).map (·.2)

/-- `rateLimits.set(ip, record)`: replace the entry if present,
otherwise append. -/
def rlSet (m : RateLimits) (ip : String) (r : RateRecord) : RateLimits :=
  if (m.find? (fun p => p.1 = ip)).isSome then
    m.map (fun p => if p.1 = ip then (ip, r) else p)
  else m ++ [(ip, r)]

/-- `checkRateLimit(ip)` (airtable.js lines 24-46), with the current
time and the mutable `rateLimits` map passed explicitly.  Returns the
boolean result together with the updated map.  `!ip` is the JS-falsy
check on the string argument. -/
def checkRateLimit (m : RateLimits) (ip : String) (now : Nat) : Bool × RateLimits :=
  if ip = "" then (true, m)
  else
    let record := (rlGet m ip).getD ⟨0, now + RATE_WINDOW⟩
    let record' :=
      if now > record.resetAt then RateRecord.mk 1 (now + RATE_WINDOW)
      else RateRecord.mk (record.count + 1) record.resetAt
    let m' := rlSet m ip record'
    let m'' :=
      if m'.length > 10000 then m'.filter (fun p => ¬ now > p.2.resetAt)
      else m'
    (record'.count ≤ RATE_LIMIT, m'')

/-- A sequence of `checkRateLimit` calls for one client key at the
given times, threading the map; returns the list of results and the
final map. -/
def runCalls (m : RateLimits) (ip : String) : List Nat → List Bool × RateLimits
  | [] => ([], m)
  | t :: ts =>
    let step := checkRateLimit m ip t
    let rest := runCalls step.2 ip ts
    (step.1 :: rest.1, rest.2)

/-- `getCorsOrigin` (airtable.js lines 89-96): reflect the request's
`Origin` header when allow-listed, otherwise fall back to the primary
domain `ALLOWED_ORIGINS[0]`.  `headers.get` yields `null` for an
absent header, and `includes(null)` is false. -/
def getCorsOrigin (origin : Option String) : String :=
  match origin with
  | some o => if ALLOWED_ORIGINS.contains o then o else ALLOWED_ORIGINS.headD ""
  | none => ALLOWED_ORIGINS.headD ""

/-- Body of an Airtable-proxy JSON response: either the handler's own
`{ error: ... }` object or the relayed upstream JSON document, kept
opaque as its serialized text. -/
inductive ABody
  | errorMsg (s : String)
  | upstreamData (d : String)
deriving DecidableEq, Repr

/-- `jsonResponse(data, status, corsOrigin)` (airtable.js lines
98-108). -/
def jsonResponse (data : ABody) (status : Nat) (corsOrigin : String) :
    HttpResponse ABody :=
  ⟨status, some data, corsOrigin⟩

/-- The client request as far as the handler reads it: method, the
`Origin`, `CF-Connecting-IP` and `X-Forwarded-For` headers, the `path`
query parameter of the function URL, and the request body text. -/
structure ProxyRequest where
  method : String
  origin : Option String
  cfConnectingIP : Option String
  xForwardedFor : Option String
  pathParam : Option String
  bodyText : String
deriving DecidableEq, Repr

/-- Client IP extraction (airtable.js lines 130-132):
`CF-Connecting-IP`, else first comma-separated entry of
`X-Forwarded-For`, else `'unknown'`, with JS `||` falsiness. -/
def clientIP (req : ProxyRequest) : String :=
  if jsTruthy req.cfConnectingIP then req.cfConnectingIP.getD ""
  else
    let xff := req.xForwardedFor.map
      (fun s => String.mk ((splitOnChar ',' s.toList).headD []))
    if jsTruthy xff then xff.getD "" else "unknown"

/-- The request the handler forwards to Airtable (the `fetch` call at
airtable.js lines 184-191).  The upstream URL built at lines 163-181
is a string no claim refers to, so its percent-re-encoding is not
modelled; the fields below are the ones the claims constrain. -/
structure UpstreamRequest where
  method : String
  authorization : String
  contentType : String
  body : Option String
deriving DecidableEq, Repr

/-- The upstream response: status plus the parsed JSON body text;
`jsonBody = none` models `response.json()` throwing (a non-JSON
body), which the surrounding `try` turns into a 500. -/
structure UpstreamResponse where
  status : Nat
  jsonBody : Option String
deriving DecidableEq, Repr

/-- `Response.ok` of the fetch API: status in the range 200-299. -/
def UpstreamResponse.ok (r : UpstreamResponse) : Bool :=
  200 ≤ r.status && r.status ≤ 299

/-- The `env` object: `AIRTABLE_TOKEN` (`none` = variable unset). -/
structure AirtableEnv where
  AIRTABLE_TOKEN : Option String
deriving DecidableEq, Repr

/-- One complete run of the handler: the response sent to the client,
the upstream request that was forwarded (if any), and the rate-limit
map afterwards. -/
structure HandlerRun where
  response : HttpResponse ABody
  upstream : Option UpstreamRequest
  rateLimits : RateLimits
deriving Repr

/-- `onRequest` of airtable.js (lines 110-211) as a pure function of
the environment, the request, the rate-limit map, the current time
and the upstream network (a function from the forwarded request to
Airtable's response). -/
def onRequest (env : AirtableEnv) (req : ProxyRequest) (rl : RateLimits)
    (now : Nat) (net : UpstreamRequest → UpstreamResponse) : HandlerRun :=
  let corsOrigin := getCorsOrigin req.origin
  if req.method = "OPTIONS" then
    ⟨⟨200, none, corsOrigin⟩, none, rl⟩
  else
    let check := checkRateLimit rl (clientIP req) now
    if ¬ check.1 then
      ⟨jsonResponse (.errorMsg "Rate limit exceeded. Please try again later.")
        429 corsOrigin, none, check.2⟩
    else if ¬ jsTruthy req.pathParam then
      ⟨jsonResponse (.errorMsg "Missing path parameter") 400 corsOrigin,
        none, check.2⟩
    else
      let path := req.pathParam.getD ""
      let validation := validateAirtablePath path
      if ¬ validation.valid then
        ⟨jsonResponse (.errorMsg (validation.error.getD "")) 400 corsOrigin,
          none, check.2⟩
      else if ¬ jsTruthy env.AIRTABLE_TOKEN then
        ⟨jsonResponse (.errorMsg "Server configuration error") 500 corsOrigin,
          none, check.2⟩
      else
        let ureq : UpstreamRequest :=
          ⟨req.method, "Bearer " ++ env.AIRTABLE_TOKEN.getD "",
            "application/json",
            if req.method ≠ "GET" then some req.bodyText else none⟩
        let uresp := net ureq
        match uresp.jsonBody with
        | none =>
          ⟨jsonResponse (.errorMsg "Internal server error") 500 corsOrigin,
            some ureq, check.2⟩
        | some d =>
          if ¬ uresp.ok then
            ⟨jsonResponse (.errorMsg "Database request failed")
              (if uresp.status ≥ 500 then 502 else uresp.status) corsOrigin,
              some ureq, check.2⟩
          else
            ⟨jsonResponse (.upstreamData d) 200 corsOrigin, some ureq, check.2⟩

end Airtable

namespace IntentScore

/-- `const ALLOWED_ORIGINS = [...]` (intent-score.js lines 4-12); the
same list as the Airtable proxy's. -/
def ALLOWED_ORIGINS : List String :=
  ["https://dashboard.prioai.ca", "https://dash.prioai.ca",
   "https://prioai.ca", "https://www.prioai.ca",
   "http://localhost:3000", "http://localhost:8788", "http://127.0.0.1:8788"]

/-- `getCorsOrigin` (intent-score.js lines 14-20). -/
def getCorsOrigin (origin : Option String) : String :=
  match origin with
  | some o => if ALLOWED_ORIGINS.contains o then o else ALLOWED_ORIGINS.headD ""
  | none => ALLOWED_ORIGINS.headD ""

/-- Body of an intent-score JSON response: `{score: n}`,
`{score: null, error: msg}` or `{error: msg}` (the 405 branch). -/
inductive IBody
  | scoreOk (n : Int)
  | scoreErr (msg : String)
  | errorMsg (s : String)
deriving DecidableEq, Repr

/-- `jsonResponse(data, status, corsOrigin)` (intent-score.js lines
22-32). -/
def jsonResponse (data : IBody) (status : Nat) (corsOrigin : String) :
    HttpResponse IBody :=
  ⟨status, some data, corsOrigin⟩

/-- The fixed system instruction `SYSTEM_PROMPT` (intent-score.js
lines 34-55). -/
def SYSTEM_PROMPT : String :=
  "If any of the fields below are empty, work with whatever data IS available. An empty field should be treated as unknown, not negative. You must still return a score even if most fields are blank.\nAnalyze this lead's data and assign an intent score from 1 to 5. Return ONLY the number.\nScoring criteria:\n5 - HOT: Ready to transact. Clear timeline (1-3 months), pre-approved or actively searching, agent confirmed strong intent in their notes after meeting\n4 - HIGH: Serious interest. Engaged in conversation, asked about listings/pricing/process, showed up to meeting, agent notes suggest potential but needs follow-up\n3 - MODERATE: Somewhat interested but non-committal. Vague timeline (6+ months), willing to talk but no concrete next steps\n2 - LOW: Minimal engagement. Short or dismissive responses, \"just looking,\" multiple attempts with little progress\n1 - COLD: Dead lead. No answer after multiple attempts, explicitly not interested, DNC, no-show with no reschedule\nCRITICAL WEIGHTING RULES:\n1. HIGHEST WEIGHT — Agent Notes (ONLY when they exist): If Agent Notes are present AND a Booked Time exists AND the notes were written or updated AFTER that Booked Time, the agent's direct assessment after meeting the lead is the single most reliable indicator of intent. This OVERRIDES any prior AI call summary or transcript sentiment. If Agent Notes are empty or blank, SKIP this layer entirely and do NOT penalize the lead for missing notes. Agents don't always add notes — the absence of notes is neutral, not negative.\n2. HIGH WEIGHT — AI Transcript & Call Summary: These capture what the lead actually said during the AI call. Use these as the primary signal when no agent notes exist. When agent notes DO exist post-meeting, these become secondary.\n3. MODERATE WEIGHT — Status, Interest, Last Outcome: These provide supporting context but should not override what was said in the transcript or written in agent notes.\n4. LOW WEIGHT — Attempts, Bookings count: Use as tiebreakers. High attempts with low engagement = negative signal. Booking existing = positive signal.\nDecision logic:\n- If post-meeting Agent Notes exist and indicate strong buyer/seller intent → 4 or 5\n- If post-meeting Agent Notes exist and indicate the lead is not serious → 1 or 2 (regardless of AI transcript)\n- If no Agent Notes exist, score based on Transcript, Call Summary, and Status alone — do NOT lower the score just because notes are missing\n- If Booked Time exists with no agent notes → score normally based on transcript/status (do not cap or penalize)\n- If Status is \"Closed\" or lead requested removal → 1\n- If multiple attempts with no meaningful conversation and no notes → score based on transcript content, not attempt count alone\n- If most fields are empty and the lead is new with no calls yet → default to 3 (unknown, not negative)\nReturn ONLY a single number: 1, 2, 3, 4, or 5."

/-- The request body fields the handler reads (intent-score.js lines
88-99).  Each field is the nullable string the JS expression
`body.<field> || ''` sees: `none` for an absent or otherwise falsy
value (the numeric fields `attempts`/`bookings` arrive through string
concatenation as their decimal rendering). -/
structure LeadBody where
  status : Option String
  lastOutcome : Option String
  callSummary : Option String
  interest : Option String
  context : Option String
  attempts : Option String
  bookings : Option String
  bookedTime : Option String
  clientNotes : Option String
  updatedAt : Option String
deriving DecidableEq, Repr

/-- The fixed field labels of the user message, in source order. -/
def fieldLabels : List String :=
  ["Status: ", "Last Outcome: ", "Call Summary: ", "Stated Interest: ",
   "Lead Context: ", "Attempts Made: ", "Bookings: ", "Booked Time: ",
   "Agent Notes: ", "Updated At: "]

/-- The field values in source order, with `body.<field> || ''`. -/
def fieldValues (b : LeadBody) : List String :=
  [b.status.getD "", b.lastOutcome.getD "", b.callSummary.getD "",
   b.interest.getD "", b.context.getD "", b.attempts.getD "",
   b.bookings.getD "", b.bookedTime.getD "", b.clientNotes.getD "",
   b.updatedAt.getD ""]

/-- The labeled lines of the `userMessage` array literal
(intent-score.js lines 88-99). -/
def userMessageLines (b : LeadBody) : List String :=
  ["Status: " ++ b.status.getD "",
   "Last Outcome: " ++ b.lastOutcome.getD "",
   "Call Summary: " ++ b.callSummary.getD "",
   "Stated Interest: " ++ b.interest.getD "",
   "Lead Context: " ++ b.context.getD "",
   "Attempts Made: " ++ b.attempts.getD "",
   "Bookings: " ++ b.bookings.getD "",
   "Booked Time: " ++ b.bookedTime.getD "",
   "Agent Notes: " ++ b.clientNotes.getD "",
   "Updated At: " ++ b.updatedAt.getD ""]

/-- `userMessage = [...].join('\n')` (intent-score.js line 99). -/
def userMessage (b : LeadBody) : String :=
  String.intercalate "\n" (userMessageLines b)

/-- One message of the completion request. -/
structure ChatMessage where
  role : String
  content : String
deriving DecidableEq, Repr

/-- The completion request the handler sends (intent-score.js lines
101-116).  The floating-point sampling temperature 0.1 is a constant
no claim refers to and is not modelled. -/
structure OpenAIRequest where
  model : String
  messages : List ChatMessage
  maxTokens : Nat
deriving DecidableEq, Repr

/-- The upstream completion response.  `content = none` models
`response.json()` throwing; `content = some c` carries
`data.choices?.[0]?.message?.content`, where the inner `none` models
a missing optional chain (JS `undefined`, turned into `''` by `||`). -/
structure OpenAIResponse where
  ok : Bool
  content : Option (Option String)
deriving DecidableEq, Repr

/-- The `env` object: `OPENAI_TOKEN` (`none` = variable unset). -/
structure ScoreEnv where
  OPENAI_TOKEN : Option String
deriving DecidableEq, Repr

/-- The client request as far as the handler reads it.  `body = none`
models `request.json()` throwing (a non-JSON request body). -/
structure ScoreRequest where
  method : String
  origin : Option String
  body : Option LeadBody
deriving DecidableEq, Repr

/-- The tail of the handler from the extracted reply content on
(intent-score.js lines 125-133): trim, `parseInt(content, 10)`, and
the `isNaN(score) || score < 1 || score > 5` guard. -/
def replyResponse (corsOrigin : String) (c : Option String) :
    HttpResponse IBody :=
  let content := jsTrim (c.getD "")
  match jsParseInt content with
  | none => jsonResponse (.scoreErr "Invalid score returned") 502 corsOrigin
  | some score =>
    if score < 1 ∨ score > 5 then
      jsonResponse (.scoreErr "Invalid score returned") 502 corsOrigin
    else jsonResponse (.scoreOk score) 200 corsOrigin

/-- `onRequest` of intent-score.js (lines 57-139) as a pure function
of the environment, the request and the upstream network; returns the
response together with the completion request sent upstream (if any). -/
def onRequest (env : ScoreEnv) (req : ScoreRequest)
    (net : OpenAIRequest → OpenAIResponse) :
    HttpResponse IBody × Option OpenAIRequest :=
  let corsOrigin := getCorsOrigin req.origin
  if req.method = "OPTIONS" then (⟨200, none, corsOrigin⟩, none)
  else if req.method ≠ "POST" then
    (jsonResponse (.errorMsg "Method not allowed") 405 corsOrigin, none)
  else if ¬ jsTruthy env.OPENAI_TOKEN then
    (jsonResponse (.scoreErr "Server configuration error") 500 corsOrigin, none)
  else
    match req.body with
    | none => (jsonResponse (.scoreErr "Internal server error") 500 corsOrigin, none)
    | some b =>
      let oreq : OpenAIRequest :=
        ⟨"gpt-4.1-mini",
          [⟨"system", SYSTEM_PROMPT⟩, ⟨"user", userMessage b⟩], 5⟩
      let oresp := net oreq
      if ¬ oresp.ok then
        (jsonResponse (.scoreErr "AI scoring failed") 502 corsOrigin, some oreq)
      else
        match oresp.content with
        | none =>
          (jsonResponse (.scoreErr "Internal server error") 500 corsOrigin, some oreq)
        | some c => (replyResponse corsOrigin c, some oreq)

end IntentScore

namespace SW

/-- A response held in the cache or produced by the network: the two
attributes the service worker inspects (`status`) plus an opaque body
standing for the rest. -/
structure SWResponse where
  status : Nat
  body : String
deriving DecidableEq, Repr

/-- An intercepted request as the fetch listener reads it: method,
the parsed URL's origin, hostname and pathname, the `accept` header,
and the full URL string used as the cache key. -/
structure SWRequest where
  method : String
  origin : String
  hostname : String
  pathname : String
  accept : Option String
  url : String
deriving DecidableEq, Repr

/-- The named cache, keyed by request URL. -/
abbrev Cache := List (String × SWResponse)

/-- `caches.match(key)`. -/
def cacheMatch (cache : Cache) (key : String) : Option SWResponse :=
  (cache.find? (fun p => p.1 = key)).map (·.2)

/-- `cache.put(key, response)`: overwrite or add. -/
def cachePut (cache : Cache) (key : String) (r : SWResponse) : Cache :=
  if (cache.find? (fun p => p.1 = key)).isSome then
    cache.map (fun p => if p.1 = key then (key, r) else p)
  else cache ++ [(key, r)]

/-- What the fetch listener does with an intercepted request:
no `respondWith` at all (the browser performs its default network
fetch), `respondWith` of a response, or `respondWith` of a rejected
or undefined promise (the page sees a network error). -/
inductive SWOutcome
  | passThrough
  | responded (r : SWResponse)
  | failed
deriving DecidableEq, Repr

/-- `headers.get('accept') && headers.get('accept').includes('text/html')`
(service worker line 68). -/
def acceptIncludesHtml (req : SWRequest) : Bool :=
  match req.accept with
  | some a => jsIncludes a "text/html"
  | none => false

/-- The fetch event listener of the service worker (lines 40-96) as a
pure function of the worker's own origin, the request, the cache and
the network (`none` models a rejected `fetch`).  Returns the outcome
and the cache afterwards; the asynchronous `cache.put` calls are
applied in program order (single-threaded event loop, last write
wins). -/
def handleFetch (selfOrigin : String) (req : SWRequest) (cache : Cache)
    (net : String → Option SWResponse) : SWOutcome × Cache :=
  if req.method ≠ "GET" then (.passThrough, cache)
  else if req.origin ≠ selfOrigin then
    if req.hostname = "fonts.googleapis.com" ∨ req.hostname = "fonts.gstatic.com" then
      match cacheMatch cache req.url with
      | some cached => (.responded cached, cache)
      | none =>
        match net req.url with
        | some response => (.responded response, cachePut cache req.url response)
        | none => (.failed, cache)
    else (.passThrough, cache)
  else if jsStartsWith req.pathname "/api/" then (.passThrough, cache)
  else if acceptIncludesHtml req then
    match net req.url with
    | some response => (.responded response, cachePut cache req.url response)
    | none =>
      match cacheMatch cache req.url with
      | some cached => (.responded cached, cache)
      | none =>
        match cacheMatch cache "/" with
        | some root => (.responded root, cache)
        | none => (.failed, cache)
  else
    match cacheMatch cache req.url with
    | some cached => (.responded cached, cache)
    | none =>
      match net req.url with
      | some response =>
        (.responded response,
          if response.status = 200 then cachePut cache req.url response else cache)
      | none => (.failed, cache)

end SW

namespace Airtable

/-- Every segment produced by `cleanParts` is nonempty (the
`filter(Boolean)` step discards empty strings). -/
theorem cleanParts_mem_ne (path : String) : ∀ s ∈ cleanParts path, s ≠ "" := by
  intro s hs
  unfold cleanParts at hs
  rw [List.mem_map] at hs
  obtain ⟨l, hl, rfl⟩ := hs
  have h2 := (List.mem_filter.mp hl).2
  intro hcon
  rw [String.ext_iff] at hcon
  simp_all

/-- The set of paths the words of claim C2 describe: the string itself
splits on `/` into exactly `base/table` or `base/table/record` with
the allow-list and record-id conditions.  This definition follows the
claim's words, to be compared with `validateAirtablePath`. -/
def claimC2Form (path : String) : Bool :=
  match (splitOnChar '/' path.toList).map String.mk with
  | [b, t] => b = ALLOWED_BASE && ALLOWED_TABLES.contains t
  | [b, t, r] => b = ALLOWED_BASE && ALLOWED_TABLES.contains t && recMatch r
  | _ => false

/-- The paths `validateAirtablePath` actually accepts: nonempty, the
cleaned segment list (leading `/` stripped, query suffix dropped,
empty segments discarded) is `base/table` or `base/table/record` with
the allow-list and record-id conditions, and the raw string contains
neither `..` nor `//`. -/
def acceptedForm (path : String) : Bool :=
  path ≠ "" &&
  (match cleanParts path with
   | [b, t] => b = ALLOWED_BASE && ALLOWED_TABLES.contains t
   | [b, t, r] => b = ALLOWED_BASE && ALLOWED_TABLES.contains t && recMatch r
   | _ => false) &&
  !(jsIncludes path "..") && !(jsIncludes path "//")

end Airtable

/-- C1: `validateAirtablePath` rejects every input string that
contains `..` or `//` anywhere in it; in particular the spec's
traversal example is invalid. -/
theorem C1_traversal_always_rejected :
    (∀ path : String,
      jsIncludes path ".." = true ∨ jsIncludes path "//" = true →
      (Airtable.validateAirtablePath path).valid = false) ∧
    (Airtable.validateAirtablePath "applOjDjhH0RqLtBH/tbl.../../etc").valid = false := by
  constructor
  · intro path h
    unfold Airtable.validateAirtablePath
    split_ifs <;> simp_all
    split_ifs <;> rfl
  · decide

/-- Witness for C1: a concrete path containing `//` is rejected. -/
theorem C1_traversal_always_rejected_witness :
    (Airtable.validateAirtablePath "applOjDjhH0RqLtBH//tblMptC862PyL7Znw").valid = false :=
  C1_traversal_always_rejected.1 "applOjDjhH0RqLtBH//tblMptC862PyL7Znw" (Or.inr (by decide))

/-- C2, counterexample: the validator accepts a path that is not of
the literal form `base-id/table-id[/record-id]` — a query-string
suffix is allowed through (its text is stripped before the segment
checks). -/
theorem C2_exact_form_counterexample :
    (Airtable.validateAirtablePath "applOjDjhH0RqLtBH/tblMptC862PyL7Znw?maxRecords=3").valid = true ∧
    Airtable.claimC2Form "applOjDjhH0RqLtBH/tblMptC862PyL7Znw?maxRecords=3" = false := by
  decide

/-- C2 (amended): `validateAirtablePath` accepts exactly the nonempty
paths whose cleaned segments (after stripping one leading slash, the
part from the first `?` on, and empty segments) form
`base/table[/record]` with the allowed base, an allowed table and a
well-formed record id, and which contain neither `..` nor `//`; the
spec's three examples behave as stated, and any path whose cleaned
segment count is outside `[2,3]` is invalid. -/
theorem C2_validator_characterization :
    (∀ path, (Airtable.validateAirtablePath path).valid = Airtable.acceptedForm path) ∧
    Airtable.validateAirtablePath "applOjDjhH0RqLtBH/tblMptC862PyL7Znw/recABC123"
      = ⟨true, none⟩ ∧
    Airtable.validateAirtablePath "wrongBase/tblMptC862PyL7Znw"
      = ⟨false, some "Invalid base"⟩ ∧
    (Airtable.validateAirtablePath "applOjDjhH0RqLtBH/tbl.../../etc").valid = false ∧
    (∀ path, (Airtable.cleanParts path).length < 2 ∨ (Airtable.cleanParts path).length > 3 →
      (Airtable.validateAirtablePath path).valid = false) := by
  refine ⟨?_, by decide, by decide, by decide, ?_⟩
  · intro path
    by_cases hp : path = ""
    · subst hp; decide
    · have hne := Airtable.cleanParts_mem_ne path
      unfold Airtable.validateAirtablePath Airtable.acceptedForm
      cases hI1 : jsIncludes path ".." <;> cases hI2 : jsIncludes path "//" <;>
        rcases h3 : Airtable.cleanParts path with _ | ⟨a, _ | ⟨b, _ | ⟨c, _ | ⟨d, l⟩⟩⟩⟩ <;>
          simp [h3, hp, hI1, hI2] <;> split_ifs <;> simp_all
  · intro path hlen
    unfold Airtable.validateAirtablePath
    split_ifs <;> simp_all

/-- Witness for C2: the characterization applied at the spec's valid
example and at a one-segment path. -/
theorem C2_validator_characterization_witness :
    (Airtable.validateAirtablePath "applOjDjhH0RqLtBH/tblLpN4wceakfNFpq/recXYZ9").valid
      = Airtable.acceptedForm "applOjDjhH0RqLtBH/tblLpN4wceakfNFpq/recXYZ9" ∧
    (Airtable.validateAirtablePath "justOneSegment").valid = false :=
  ⟨C2_validator_characterization.1 "applOjDjhH0RqLtBH/tblLpN4wceakfNFpq/recXYZ9",
   C2_validator_characterization.2.2.2.2 "justOneSegment" (by decide)⟩

namespace Airtable

/-- Any upstream request the proxy forwards carries the Authorization
header built from the environment token. -/
theorem onRequest_upstream_auth (env : AirtableEnv) (req : ProxyRequest)
    (rl : RateLimits) (now : Nat) (net : UpstreamRequest → UpstreamResponse)
    (u : UpstreamRequest) (h : (onRequest env req rl now net).upstream = some u) :
    u.authorization = "Bearer " ++ env.AIRTABLE_TOKEN.getD "" := by
  unfold onRequest at h
  dsimp only at h
  split_ifs at h
  all_goals try (split at h)
  all_goals simp_all
  all_goals (cases h; rfl)

/-- With a falsy environment token no upstream request is made. -/
theorem onRequest_no_upstream_of_falsy_token (env : AirtableEnv)
    (req : ProxyRequest) (rl : RateLimits) (now : Nat)
    (net : UpstreamRequest → UpstreamResponse)
    (htok : jsTruthy env.AIRTABLE_TOKEN = false) :
    (onRequest env req rl now net).upstream = none := by
  unfold onRequest
  dsimp only
  split_ifs <;> simp_all

/-- With a falsy environment token, a non-preflight request that
passes rate limiting and path validation gets the 500 response. -/
theorem onRequest_500_of_falsy_token (env : AirtableEnv)
    (req : ProxyRequest) (rl : RateLimits) (now : Nat)
    (net : UpstreamRequest → UpstreamResponse)
    (htok : jsTruthy env.AIRTABLE_TOKEN = false)
    (hm : req.method ≠ "OPTIONS")
    (hrate : (checkRateLimit rl (clientIP req) now).1 = true)
    (hpath : jsTruthy req.pathParam = true)
    (hvalid : (validateAirtablePath (req.pathParam.getD "")).valid = true) :
    (onRequest env req rl now net).response =
      ⟨500, some (.errorMsg "Server configuration error"),
        getCorsOrigin req.origin⟩ := by
  unfold onRequest
  dsimp only
  split_ifs <;> simp_all [jsonResponse]

end Airtable

/-- C3: the Authorization header of any request the Airtable proxy
forwards upstream is `Bearer ` followed by the server-side
`AIRTABLE_TOKEN` value, so it is identical across any two runs with
the same environment and independent of all client-supplied content;
when the environment token is unset or empty the handler never
contacts Airtable, and — once the request passes preflight, rate
limiting and path validation — returns status 500. -/
theorem C3_bearer_token_server_side :
    (∀ env req rl now net u,
      (Airtable.onRequest env req rl now net).upstream = some u →
      u.authorization = "Bearer " ++ env.AIRTABLE_TOKEN.getD "") ∧
    (∀ env req₁ req₂ rl₁ rl₂ now₁ now₂ net₁ net₂ u₁ u₂,
      (Airtable.onRequest env req₁ rl₁ now₁ net₁).upstream = some u₁ →
      (Airtable.onRequest env req₂ rl₂ now₂ net₂).upstream = some u₂ →
      u₁.authorization = u₂.authorization) ∧
    (∀ env req rl now net, jsTruthy env.AIRTABLE_TOKEN = false →
      (Airtable.onRequest env req rl now net).upstream = none) ∧
    (∀ env req rl now net, jsTruthy env.AIRTABLE_TOKEN = false →
      req.method ≠ "OPTIONS" →
      (Airtable.checkRateLimit rl (Airtable.clientIP req) now).1 = true →
      jsTruthy req.pathParam = true →
      (Airtable.validateAirtablePath (req.pathParam.getD "")).valid = true →
      (Airtable.onRequest env req rl now net).response =
        ⟨500, some (.errorMsg "Server configuration error"),
          Airtable.getCorsOrigin req.origin⟩) := by
  refine ⟨fun env req rl now net u h => Airtable.onRequest_upstream_auth env req rl now net u h,
    ?_, fun env req rl now net htok =>
      Airtable.onRequest_no_upstream_of_falsy_token env req rl now net htok,
    fun env req rl now net htok hm hrate hpath hvalid =>
      Airtable.onRequest_500_of_falsy_token env req rl now net htok hm hrate hpath hvalid⟩
  intro env req₁ req₂ rl₁ rl₂ now₁ now₂ net₁ net₂ u₁ u₂ h₁ h₂
  rw [Airtable.onRequest_upstream_auth env req₁ rl₁ now₁ net₁ u₁ h₁,
    Airtable.onRequest_upstream_auth env req₂ rl₂ now₂ net₂ u₂ h₂]

/-- Witness for C3: with the token set, a concrete forwarded request
carries `Bearer tok`; with the token unset, the same client request
yields a 500 and no upstream call. -/
theorem C3_bearer_token_server_side_witness :
    (Airtable.UpstreamRequest.mk "GET" ("Bearer " ++ "tok") "application/json"
        none).authorization = "Bearer " ++ ((some "tok" : Option String).getD "") ∧
    (Airtable.onRequest ⟨none⟩
        ⟨"GET", none, some "1.2.3.4", none,
          some "applOjDjhH0RqLtBH/tblMptC862PyL7Znw", ""⟩
        [] 0 (fun _ => ⟨200, some "d"⟩)).response =
      ⟨500, some (.errorMsg "Server configuration error"),
        Airtable.getCorsOrigin none⟩ :=
  ⟨C3_bearer_token_server_side.1 ⟨some "tok"⟩
      ⟨"GET", none, some "1.2.3.4", none,
        some "applOjDjhH0RqLtBH/tblMptC862PyL7Znw", ""⟩
      [] 0 (fun _ => ⟨200, some "d"⟩)
      ⟨"GET", "Bearer " ++ "tok", "application/json", none⟩ (by decide),
   C3_bearer_token_server_side.2.2.2 ⟨none⟩
      ⟨"GET", none, some "1.2.3.4", none,
        some "applOjDjhH0RqLtBH/tblMptC862PyL7Znw", ""⟩
      [] 0 (fun _ => ⟨200, some "d"⟩)
      (by decide) (by decide) (by decide) (by decide) (by decide)⟩

/-- C4: once the proxy has forwarded a request and the upstream reply
carries a JSON body, a non-2xx upstream status yields the fixed masked
error body with status 502 when the upstream status is at least 500
and the upstream's own status otherwise, and a 2xx upstream status
yields the relayed JSON body with status 200. -/
theorem C4_upstream_error_masking :
    ∀ env req rl now net u d,
      (Airtable.onRequest env req rl now net).upstream = some u →
      (net u).jsonBody = some d →
      ((net u).ok = false →
        (Airtable.onRequest env req rl now net).response =
          ⟨if (net u).status ≥ 500 then 502 else (net u).status,
            some (.errorMsg "Database request failed"),
            Airtable.getCorsOrigin req.origin⟩) ∧
      ((net u).ok = true →
        (Airtable.onRequest env req rl now net).response =
          ⟨200, some (.upstreamData d), Airtable.getCorsOrigin req.origin⟩) := by
  intro env req rl now net u d h hjson
  unfold Airtable.onRequest at h ⊢
  dsimp only at h ⊢
  split_ifs at h
  all_goals try (split at h)
  all_goals simp_all
  all_goals (cases h; constructor <;> intro hok <;> simp_all [Airtable.jsonResponse])

/-- Witness for C4: a concrete 503 upstream reply is masked to 502
with the fixed error body, and a concrete 201 reply is relayed with
status 200. -/
theorem C4_upstream_error_masking_witness :
    ((Airtable.onRequest ⟨some "tok"⟩
        ⟨"GET", none, some "1.2.3.4", none,
          some "applOjDjhH0RqLtBH/tblMptC862PyL7Znw", ""⟩
        [] 0 (fun _ => ⟨503, some "secret upstream detail"⟩)).response =
      ⟨502, some (.errorMsg "Database request failed"),
        Airtable.getCorsOrigin none⟩) ∧
    ((Airtable.onRequest ⟨some "tok"⟩
        ⟨"GET", none, some "1.2.3.4", none,
          some "applOjDjhH0RqLtBH/tblMptC862PyL7Znw", ""⟩
        [] 0 (fun _ => ⟨201, some "payload"⟩)).response =
      ⟨200, some (.upstreamData "payload"),
        Airtable.getCorsOrigin none⟩) :=
  ⟨(C4_upstream_error_masking ⟨some "tok"⟩
      ⟨"GET", none, some "1.2.3.4", none,
        some "applOjDjhH0RqLtBH/tblMptC862PyL7Znw", ""⟩
      [] 0 (fun _ => ⟨503, some "secret upstream detail"⟩)
      ⟨"GET", "Bearer " ++ "tok", "application/json", none⟩
      "secret upstream detail" (by decide) (by decide)).1 (by decide),
   (C4_upstream_error_masking ⟨some "tok"⟩
      ⟨"GET", none, some "1.2.3.4", none,
        some "applOjDjhH0RqLtBH/tblMptC862PyL7Znw", ""⟩
      [] 0 (fun _ => ⟨201, some "payload"⟩)
      ⟨"GET", "Bearer " ++ "tok", "application/json", none⟩
      "payload" (by decide) (by decide)).2 (by decide)⟩

namespace Airtable

/-- First call from an empty table: count becomes 1, window opens. -/
theorem checkRateLimit_empty (ip : String) (t : Nat) (hip : ip ≠ "") :
    checkRateLimit [] ip t = (true, [(ip, ⟨1, t + RATE_WINDOW⟩)]) := by
  simp [checkRateLimit, rlGet, rlSet, hip, RATE_WINDOW, RATE_LIMIT]

/-- A call inside the window increments the count and reports whether
the limit is respected. -/
theorem checkRateLimit_step (ip : String) (t R k : Nat) (hip : ip ≠ "")
    (ht : t ≤ R) :
    checkRateLimit [(ip, ⟨k, R⟩)] ip t =
      (decide (k + 1 ≤ RATE_LIMIT), [(ip, ⟨k + 1, R⟩)]) := by
  simp [checkRateLimit, rlGet, rlSet, hip, Nat.not_lt.mpr ht]

/-- A call after the window expired resets the count to 1 and opens a
new window. -/
theorem checkRateLimit_reset (ip : String) (t R k : Nat) (hip : ip ≠ "")
    (ht : R < t) :
    checkRateLimit [(ip, ⟨k, R⟩)] ip t =
      (true, [(ip, ⟨1, t + RATE_WINDOW⟩)]) := by
  simp [checkRateLimit, rlGet, rlSet, hip, ht, RATE_LIMIT]

/-- Running a burst of calls whose times all lie within the open
window: each call increments the count, and the i-th call reports
`count ≤ RATE_LIMIT`. -/
theorem runCalls_window (ip : String) (R : Nat) (hip : ip ≠ "") :
    ∀ (ts : List Nat) (k : Nat), (∀ t ∈ ts, t ≤ R) →
      runCalls [(ip, ⟨k, R⟩)] ip ts =
        ((List.range ts.length).map (fun i => decide (k + i + 1 ≤ RATE_LIMIT)),
          [(ip, ⟨k + ts.length, R⟩)]) := by
  intro ts
  induction ts with
  | nil => intro k h; simp [runCalls]
  | cons t ts ih =>
    intro k h
    have ht : t ≤ R := h t (List.mem_cons_self t ts)
    have hts : ∀ t' ∈ ts, t' ≤ R := fun t' h' => h t' (List.mem_cons_of_mem t h')
    have harith : ∀ i, k + 1 + i + 1 = k + (i + 1) + 1 := by omega
    simp [runCalls, checkRateLimit_step ip t R k hip ht, ih (k + 1) hts,
      List.range_succ_eq_map, List.map_map, Function.comp, harith]
    omega

end Airtable

set_option maxRecDepth 16384 in
/-- C5: starting from an empty rate-limit table, a burst of 1001
calls from one client key whose times all lie within the window
opened by the first call returns `true` for the first 1000 calls and
`false` for the 1001st; once the current time exceeds the record's
`resetAt`, the count resets to 1 and the next call returns `true`
again. -/
theorem C5_rate_limiter :
    ∀ (ip : String) (t₁ : Nat) (ts : List Nat), ip ≠ "" →
      ts.length = Airtable.RATE_LIMIT →
      (∀ t ∈ ts, t ≤ t₁ + Airtable.RATE_WINDOW) →
      (Airtable.runCalls [] ip (t₁ :: ts)).1 =
        List.replicate Airtable.RATE_LIMIT true ++ [false] ∧
      (∀ t₂, t₁ + Airtable.RATE_WINDOW < t₂ →
        (Airtable.checkRateLimit (Airtable.runCalls [] ip (t₁ :: ts)).2 ip t₂).1 = true ∧
        (Airtable.checkRateLimit (Airtable.runCalls [] ip (t₁ :: ts)).2 ip t₂).2 =
          [(ip, ⟨1, t₂ + Airtable.RATE_WINDOW⟩)]) := by
  intro ip t₁ ts hip hlen hts
  have hrun : Airtable.runCalls [] ip (t₁ :: ts) =
      (true :: (List.range ts.length).map (fun i => decide (1 + i + 1 ≤ Airtable.RATE_LIMIT)),
        [(ip, ⟨1 + ts.length, t₁ + Airtable.RATE_WINDOW⟩)]) := by
    simp [Airtable.runCalls, Airtable.checkRateLimit_empty ip t₁ hip,
      Airtable.runCalls_window ip (t₁ + Airtable.RATE_WINDOW) hip ts 1 hts]
  have hmap : (List.range Airtable.RATE_LIMIT).map
      (fun i => decide (1 + i + 1 ≤ Airtable.RATE_LIMIT)) =
      List.replicate (Airtable.RATE_LIMIT - 1) true ++ [false] := by decide
  constructor
  · rw [hrun]
    simp only [hlen, hmap]
    have : List.replicate Airtable.RATE_LIMIT true =
        true :: List.replicate (Airtable.RATE_LIMIT - 1) true := by decide
    rw [this]
    simp
  · intro t₂ ht₂
    rw [hrun]
    exact ⟨by rw [Airtable.checkRateLimit_reset ip t₂ (t₁ + Airtable.RATE_WINDOW)
        (1 + ts.length) hip ht₂],
      by rw [Airtable.checkRateLimit_reset ip t₂ (t₁ + Airtable.RATE_WINDOW)
        (1 + ts.length) hip ht₂]⟩

/-- Witness for C5: a concrete burst of 1001 calls at time 0 from one
key, followed by a call one millisecond after the window closes. -/
theorem C5_rate_limiter_witness :
    (Airtable.runCalls [] "203.0.113.7" (0 :: List.replicate 1000 0)).1 =
      List.replicate Airtable.RATE_LIMIT true ++ [false] ∧
    (Airtable.checkRateLimit
        (Airtable.runCalls [] "203.0.113.7" (0 :: List.replicate 1000 0)).2
        "203.0.113.7" 60001).1 = true :=
  ⟨(C5_rate_limiter "203.0.113.7" 0 (List.replicate 1000 0) (by decide)
      (by rw [List.length_replicate]; rfl)
      (fun t ht => by rw [List.eq_of_mem_replicate ht]; exact Nat.zero_le _)).1,
   ((C5_rate_limiter "203.0.113.7" 0 (List.replicate 1000 0) (by decide)
      (by rw [List.length_replicate]; rfl)
      (fun t ht => by rw [List.eq_of_mem_replicate ht]; exact Nat.zero_le _)).2
      60001 (by decide)).1⟩

namespace IntentScore

/-- When the handler has sent a completion request and the upstream
reply is ok with an extracted content field, the response is the
parse-and-bounds-check of that content. -/
theorem onRequest_reply (env : ScoreEnv) (req : ScoreRequest)
    (net : OpenAIRequest → OpenAIResponse) (oreq : OpenAIRequest)
    (c : Option String)
    (h : (onRequest env req net).2 = some oreq)
    (hok : (net oreq).ok = true)
    (hc : (net oreq).content = some c) :
    (onRequest env req net).1 = replyResponse (getCorsOrigin req.origin) c := by
  unfold onRequest at h ⊢
  dsimp only at h ⊢
  split_ifs at h
  all_goals try (split at h)
  all_goals try (split_ifs at h)
  all_goals try (split at h)
  all_goals simp_all

end IntentScore

/-- C6: given an upstream completion reply, the intent-score handler
parses it with `parseInt`; a non-numeric reply or a parsed value
outside `[1,5]` yields status 502 with `{score: null, error: "Invalid
score returned"}`, a value within bounds yields status 200 with
`{score: n}`; in particular a reply of `"7"` is rejected and a reply
of `"4"` yields `{score: 4}`. -/
theorem C6_score_parse_and_bounds :
    ∀ env req net oreq c,
      (IntentScore.onRequest env req net).2 = some oreq →
      (net oreq).ok = true →
      (net oreq).content = some c →
      (jsParseInt (jsTrim (c.getD "")) = none →
        (IntentScore.onRequest env req net).1 =
          ⟨502, some (.scoreErr "Invalid score returned"),
            IntentScore.getCorsOrigin req.origin⟩) ∧
      (∀ n, jsParseInt (jsTrim (c.getD "")) = some n → n < 1 ∨ 5 < n →
        (IntentScore.onRequest env req net).1 =
          ⟨502, some (.scoreErr "Invalid score returned"),
            IntentScore.getCorsOrigin req.origin⟩) ∧
      (∀ n, jsParseInt (jsTrim (c.getD "")) = some n → 1 ≤ n → n ≤ 5 →
        (IntentScore.onRequest env req net).1 =
          ⟨200, some (.scoreOk n), IntentScore.getCorsOrigin req.origin⟩) ∧
      (c = some "7" →
        (IntentScore.onRequest env req net).1 =
          ⟨502, some (.scoreErr "Invalid score returned"),
            IntentScore.getCorsOrigin req.origin⟩) ∧
      (c = some "4" →
        (IntentScore.onRequest env req net).1 =
          ⟨200, some (.scoreOk 4), IntentScore.getCorsOrigin req.origin⟩) := by
  intro env req net oreq c h hok hc
  rw [IntentScore.onRequest_reply env req net oreq c h hok hc]
  refine ⟨?_, ?_, ?_, ?_, ?_⟩
  · intro hnone
    simp [IntentScore.replyResponse, hnone, IntentScore.jsonResponse]
  · intro n hn hout
    simp only [IntentScore.replyResponse, hn, IntentScore.jsonResponse]
    rw [if_pos hout]
  · intro n hn h1 h5
    simp only [IntentScore.replyResponse, hn, IntentScore.jsonResponse]
    rw [if_neg (by omega)]
  · rintro rfl
    simp only [IntentScore.replyResponse, Option.getD_some,
      show jsParseInt (jsTrim "7") = some 7 from by decide,
      IntentScore.jsonResponse]
    rw [if_pos (by omega)]
  · rintro rfl
    simp only [IntentScore.replyResponse, Option.getD_some,
      show jsParseInt (jsTrim "4") = some 4 from by decide,
      IntentScore.jsonResponse]
    rw [if_neg (by omega)]

/-- Witness for C6: a concrete run whose upstream reply is `"4"`
returns `{score: 4}` with status 200. -/
theorem C6_score_parse_and_bounds_witness :
    (IntentScore.onRequest ⟨some "sk"⟩
        ⟨"POST", none, some ⟨none, none, none, none, none, none, none, none, none, none⟩⟩
        (fun _ => ⟨true, some (some "4")⟩)).1 =
      ⟨200, some (.scoreOk 4), IntentScore.getCorsOrigin none⟩ :=
  (C6_score_parse_and_bounds ⟨some "sk"⟩
      ⟨"POST", none, some ⟨none, none, none, none, none, none, none, none, none, none⟩⟩
      (fun _ => ⟨true, some (some "4")⟩)
      ⟨"gpt-4.1-mini",
        [⟨"system", IntentScore.SYSTEM_PROMPT⟩,
         ⟨"user", IntentScore.userMessage
            ⟨none, none, none, none, none, none, none, none, none, none⟩⟩], 5⟩
      (some "4") rfl rfl rfl).2.2.2.2 rfl

namespace IntentScore

/-- Whenever the handler sends a completion request, that request is
the fixed two-message chat built from the parsed body. -/
theorem onRequest_messages (env : ScoreEnv) (req : ScoreRequest)
    (net : OpenAIRequest → OpenAIResponse) (oreq : OpenAIRequest)
    (b : LeadBody) (hb : req.body = some b)
    (h : (onRequest env req net).2 = some oreq) :
    oreq = ⟨"gpt-4.1-mini",
      [⟨"system", SYSTEM_PROMPT⟩, ⟨"user", userMessage b⟩], 5⟩ := by
  unfold onRequest at h
  dsimp only at h
  split_ifs at h
  all_goals try (split at h)
  all_goals try (split_ifs at h)
  all_goals try (split at h)
  all_goals simp_all

end IntentScore

/-- C7, counterexample: the user turn of the completion request is
built from ten labeled fields, not nine — splitting the built message
on a newline yields ten lines. -/
theorem C7_nine_fields_counterexample :
    (splitOnChar '\n' (IntentScore.userMessage
      ⟨none, none, none, none, none, none, none, none, none, none⟩).toList).length = 10 ∧
    ¬ (splitOnChar '\n' (IntentScore.userMessage
      ⟨none, none, none, none, none, none, none, none, none, none⟩).toList).length = 9 := by
  decide

/-- C7 (amended): the handler builds the user turn by concatenating
exactly ten fixed-order labeled fields of the request body, one
labeled line per field joined by newlines, and sends it as the user
turn of a two-message completion request whose first message is the
fixed system instruction. -/
theorem C7_ten_labeled_fields :
    ∀ b : IntentScore.LeadBody,
      (IntentScore.userMessageLines b).length = 10 ∧
      List.Forall₂ (fun lv line => line = lv.1 ++ lv.2)
        (IntentScore.fieldLabels.zip (IntentScore.fieldValues b))
        (IntentScore.userMessageLines b) ∧
      IntentScore.userMessage b =
        String.intercalate "\n" (IntentScore.userMessageLines b) ∧
      (∀ env req net oreq, req.body = some b →
        (IntentScore.onRequest env req net).2 = some oreq →
        oreq.messages =
          [⟨"system", IntentScore.SYSTEM_PROMPT⟩,
           ⟨"user", IntentScore.userMessage b⟩]) := by
  intro b
  refine ⟨rfl, ?_, rfl, ?_⟩
  · simp only [IntentScore.fieldLabels, IntentScore.fieldValues,
      IntentScore.userMessageLines, List.zip_cons_cons, List.zip_nil_right]
    repeat' constructor
  · intro env req net oreq hb h
    rw [IntentScore.onRequest_messages env req net oreq b hb h]

/-- Witness for C7: a concrete lead body produces the ten-line user
turn, and a concrete run sends it as the user message of the
two-message request. -/
theorem C7_ten_labeled_fields_witness :
    (IntentScore.userMessageLines
      ⟨some "Hot", none, some "asked about pricing", none, none,
        some "3", none, none, none, none⟩).length = 10 ∧
    (IntentScore.OpenAIRequest.mk "gpt-4.1-mini"
        [⟨"system", IntentScore.SYSTEM_PROMPT⟩,
         ⟨"user", IntentScore.userMessage
            ⟨some "Hot", none, some "asked about pricing", none, none,
              some "3", none, none, none, none⟩⟩] 5).messages =
      [⟨"system", IntentScore.SYSTEM_PROMPT⟩,
       ⟨"user", IntentScore.userMessage
          ⟨some "Hot", none, some "asked about pricing", none, none,
            some "3", none, none, none, none⟩⟩] :=
  ⟨(C7_ten_labeled_fields
      ⟨some "Hot", none, some "asked about pricing", none, none,
        some "3", none, none, none, none⟩).1,
   (C7_ten_labeled_fields
      ⟨some "Hot", none, some "asked about pricing", none, none,
        some "3", none, none, none, none⟩).2.2.2
      ⟨some "sk"⟩
      ⟨"POST", none, some ⟨some "Hot", none, some "asked about pricing", none, none,
        some "3", none, none, none, none⟩⟩
      (fun _ => ⟨true, some (some "3")⟩)
      ⟨"gpt-4.1-mini",
        [⟨"system", IntentScore.SYSTEM_PROMPT⟩,
         ⟨"user", IntentScore.userMessage
            ⟨some "Hot", none, some "asked about pricing", none, none,
              some "3", none, none, none, none⟩⟩], 5⟩
      rfl rfl⟩

/-- C8: an intercepted same-origin GET request whose path starts with
`/api/` is passed through untouched — no `respondWith`, so it is
never answered from the cache even if a response for its URL is
cached, and the cache is left unchanged. -/
theorem C8_api_never_cached :
    ∀ (selfOrigin : String) (req : SW.SWRequest) (cache : SW.Cache)
      (net : String → Option SW.SWResponse),
      req.method = "GET" → req.origin = selfOrigin →
      jsStartsWith req.pathname "/api/" = true →
      SW.handleFetch selfOrigin req cache net = (.passThrough, cache) := by
  intro selfOrigin req cache net hm ho hapi
  unfold SW.handleFetch
  simp [hm, ho, hapi]

/-- Witness for C8: a `/api/leads` request passes through even though
a response for its URL sits in the cache. -/
theorem C8_api_never_cached_witness :
    SW.handleFetch "https://dash.example"
        ⟨"GET", "https://dash.example", "dash.example", "/api/leads", none,
          "https://dash.example/api/leads"⟩
        [("https://dash.example/api/leads", ⟨200, "stale"⟩), ("/", ⟨200, "root"⟩)]
        (fun _ => none) =
      (.passThrough,
        [("https://dash.example/api/leads", ⟨200, "stale"⟩), ("/", ⟨200, "root"⟩)]) :=
  C8_api_never_cached "https://dash.example"
    ⟨"GET", "https://dash.example", "dash.example", "/api/leads", none,
      "https://dash.example/api/leads"⟩
    [("https://dash.example/api/leads", ⟨200, "stale"⟩), ("/", ⟨200, "root"⟩)]
    (fun _ => none) rfl rfl (by decide)

/-- C9, counterexample: an HTML-accepting GET under `/api/` is NOT
handled network-first with cache fallback — the `/api/` branch takes
precedence and passes it through, so with a failing network it is not
answered from its cached copy as the claim requires. -/
theorem C9_html_api_counterexample :
    SW.handleFetch "https://o"
        ⟨"GET", "https://o", "o", "/api/leads", some "text/html",
          "https://o/api/leads"⟩
        [("https://o/api/leads", ⟨200, "cached api page"⟩), ("/", ⟨200, "root"⟩)]
        (fun _ => none) =
      (.passThrough,
        [("https://o/api/leads", ⟨200, "cached api page"⟩), ("/", ⟨200, "root"⟩)]) ∧
    SW.SWOutcome.passThrough ≠ SW.SWOutcome.responded ⟨200, "cached api page"⟩ := by
  decide

/-- C9 (amended): for every intercepted same-origin GET request whose
Accept header includes `text/html` and whose path does not start with
`/api/`, the dispatcher answers with the network response when the
fetch succeeds (caching a copy), with the cached copy of the request
when the fetch fails, and with the cached root document `/` when no
copy of the request is cached; with the root document cached it never
propagates a network error and never falls back to the browser
default. -/
theorem C9_html_network_first :
    ∀ (selfOrigin : String) (req : SW.SWRequest) (cache : SW.Cache)
      (net : String → Option SW.SWResponse),
      req.method = "GET" → req.origin = selfOrigin →
      jsStartsWith req.pathname "/api/" = false →
      SW.acceptIncludesHtml req = true →
      (∀ r, net req.url = some r →
        SW.handleFetch selfOrigin req cache net =
          (.responded r, SW.cachePut cache req.url r)) ∧
      (net req.url = none → ∀ c, SW.cacheMatch cache req.url = some c →
        SW.handleFetch selfOrigin req cache net = (.responded c, cache)) ∧
      (net req.url = none → SW.cacheMatch cache req.url = none →
        ∀ rt, SW.cacheMatch cache "/" = some rt →
        SW.handleFetch selfOrigin req cache net = (.responded rt, cache)) ∧
      ((SW.cacheMatch cache "/").isSome = true →
        (SW.handleFetch selfOrigin req cache net).1 ≠ SW.SWOutcome.failed ∧
        (SW.handleFetch selfOrigin req cache net).1 ≠ SW.SWOutcome.passThrough) := by
  intro selfOrigin req cache net hm ho hapi hhtml
  refine ⟨?_, ?_, ?_, ?_⟩
  · intro r hr
    unfold SW.handleFetch
    simp [hm, ho, hapi, hhtml, hr]
  · intro hn c hc
    unfold SW.handleFetch
    simp [hm, ho, hapi, hhtml, hn, hc]
  · intro hn hc rt hrt
    unfold SW.handleFetch
    simp [hm, ho, hapi, hhtml, hn, hc, hrt]
  · intro hroot
    unfold SW.handleFetch
    simp only [hm, ho, hapi, hhtml]
    rcases hn : net req.url with _ | r
    · rcases hc : SW.cacheMatch cache req.url with _ | c
      · rcases hrt : SW.cacheMatch cache "/" with _ | rt
        · rw [hrt] at hroot; simp at hroot
        · simp [hn, hc, hrt]
      · simp [hn, hc]
    · simp [hn]

/-- Witness for C9: with a failing network and no cached copy of the
navigation, a concrete HTML navigation is answered with the cached
root document. -/
theorem C9_html_network_first_witness :
    SW.handleFetch "https://o"
        ⟨"GET", "https://o", "o", "/leads", some "text/html", "https://o/leads"⟩
        [("/", ⟨200, "root shell"⟩)] (fun _ => none) =
      (.responded ⟨200, "root shell"⟩, [("/", ⟨200, "root shell"⟩)]) :=
  (C9_html_network_first "https://o"
      ⟨"GET", "https://o", "o", "/leads", some "text/html", "https://o/leads"⟩
      [("/", ⟨200, "root shell"⟩)] (fun _ => none)
      rfl rfl (by decide) (by decide)).2.2.1 rfl (by decide)
      ⟨200, "root shell"⟩ (by decide)

namespace Airtable

/-- Every response of the Airtable proxy carries the CORS origin
computed by `getCorsOrigin` from the request's Origin header. -/
theorem onRequest_acao (env : AirtableEnv) (req : ProxyRequest)
    (rl : RateLimits) (now : Nat) (net : UpstreamRequest → UpstreamResponse) :
    (onRequest env req rl now net).response.acao = getCorsOrigin req.origin := by
  unfold onRequest
  dsimp only
  split_ifs
  all_goals try rfl
  all_goals (split <;> (try split_ifs) <;> rfl)

/-- `getCorsOrigin` always returns a member of the allow-list. -/
theorem getCorsOrigin_mem (o : Option String) :
    getCorsOrigin o ∈ ALLOWED_ORIGINS := by
  unfold getCorsOrigin
  rcases o with _ | o
  · decide
  · dsimp only
    split_ifs with h
    · simpa using h
    · decide

end Airtable

namespace IntentScore

/-- Every response of the intent-score handler carries the CORS
origin computed by `getCorsOrigin` from the request's Origin header. -/
theorem scoreRequest_acao (env : ScoreEnv) (req : ScoreRequest)
    (net : OpenAIRequest → OpenAIResponse) :
    (onRequest env req net).1.acao = getCorsOrigin req.origin := by
  unfold onRequest replyResponse
  dsimp only
  split_ifs
  all_goals try rfl
  all_goals (split <;> (try split_ifs) <;> (try rfl))
  all_goals (split <;> (try split_ifs) <;> (try rfl))
  all_goals (split <;> (try split_ifs) <;> rfl)

/-- `getCorsOrigin` always returns a member of the allow-list. -/
theorem scoreCorsOrigin_mem (o : Option String) :
    getCorsOrigin o ∈ ALLOWED_ORIGINS := by
  unfold getCorsOrigin
  rcases o with _ | o
  · decide
  · dsimp only
    split_ifs with h
    · simpa using h
    · decide

end IntentScore

/-- C10: every response of the Airtable proxy and of the intent-score
handler — preflight, every error branch and every success branch —
carries an `Access-Control-Allow-Origin` value from the fixed
allow-list: the request's own Origin when that origin is
allow-listed, and `https://dashboard.prioai.ca` otherwise, so an
origin outside the allow-list is never reflected back. -/
theorem C10_cors_origin_allowlisted :
    (∀ env req rl now net,
      (Airtable.onRequest env req rl now net).response.acao ∈ Airtable.ALLOWED_ORIGINS ∧
      (∀ o, req.origin = some o → o ∈ Airtable.ALLOWED_ORIGINS →
        (Airtable.onRequest env req rl now net).response.acao = o) ∧
      (∀ o, req.origin = some o → o ∉ Airtable.ALLOWED_ORIGINS →
        (Airtable.onRequest env req rl now net).response.acao = "https://dashboard.prioai.ca") ∧
      (req.origin = none →
        (Airtable.onRequest env req rl now net).response.acao = "https://dashboard.prioai.ca")) ∧
    (∀ env req net,
      (IntentScore.onRequest env req net).1.acao ∈ IntentScore.ALLOWED_ORIGINS ∧
      (∀ o, req.origin = some o → o ∈ IntentScore.ALLOWED_ORIGINS →
        (IntentScore.onRequest env req net).1.acao = o) ∧
      (∀ o, req.origin = some o → o ∉ IntentScore.ALLOWED_ORIGINS →
        (IntentScore.onRequest env req net).1.acao = "https://dashboard.prioai.ca") ∧
      (req.origin = none →
        (IntentScore.onRequest env req net).1.acao = "https://dashboard.prioai.ca")) := by
  constructor
  · intro env req rl now net
    rw [Airtable.onRequest_acao]
    refine ⟨Airtable.getCorsOrigin_mem req.origin, ?_, ?_, ?_⟩
    · intro o ho hmem
      rw [ho]
      unfold Airtable.getCorsOrigin
      dsimp only
      rw [if_pos (by simpa using hmem)]
    · intro o ho hmem
      rw [ho]
      unfold Airtable.getCorsOrigin
      dsimp only
      rw [if_neg (by simpa using hmem)]
      rfl
    · intro ho; rw [ho]; rfl
  · intro env req net
    rw [IntentScore.scoreRequest_acao]
    refine ⟨IntentScore.scoreCorsOrigin_mem req.origin, ?_, ?_, ?_⟩
    · intro o ho hmem
      rw [ho]
      unfold IntentScore.getCorsOrigin
      dsimp only
      rw [if_pos (by simpa using hmem)]
    · intro o ho hmem
      rw [ho]
      unfold IntentScore.getCorsOrigin
      dsimp only
      rw [if_neg (by simpa using hmem)]
      rfl
    · intro ho; rw [ho]; rfl

/-- Witness for C10: a disallowed origin is replaced by the primary
domain; an allow-listed origin is reflected. -/
theorem C10_cors_origin_allowlisted_witness :
    (Airtable.onRequest ⟨none⟩
        ⟨"GET", some "https://evil.example", none, none, none, ""⟩
        [] 0 (fun _ => ⟨200, some "d"⟩)).response.acao = "https://dashboard.prioai.ca" ∧
    (IntentScore.onRequest ⟨none⟩
        ⟨"POST", some "https://dash.prioai.ca", none⟩
        (fun _ => ⟨true, some (some "4")⟩)).1.acao = "https://dash.prioai.ca" :=
  ⟨(C10_cors_origin_allowlisted.1 ⟨none⟩
      ⟨"GET", some "https://evil.example", none, none, none, ""⟩
      [] 0 (fun _ => ⟨200, some "d"⟩)).2.2.1 "https://evil.example" rfl (by decide),
   (C10_cors_origin_allowlisted.2 ⟨none⟩
      ⟨"POST", some "https://dash.prioai.ca", none⟩
      (fun _ => ⟨true, some (some "4")⟩)).2.1 "https://dash.prioai.ca" rfl (by decide)⟩
